import Mathlib

/-!
Verification of the `cts-caseload` Python package against its specification.

The package consists of a single `__init__.py` (importing `example_function`
from a submodule `core`, wiring a version fallback, and declaring package
metadata and `__all__`) and one unit test. We give a shallow embedding of
the relevant Python semantics: values, the `+` operator with its
type-mismatch failure, exception-carrying computations as `Except`, the
version-fallback `try`/`except` block, and the module layout of the source
tree.
-/

namespace CtsCaseload

/-- Python exceptions relevant to this package, all subclasses of
`Exception` (and hence caught by a bare `except Exception` clause). -/
inductive PyErr where
  | typeError (msg : String)
  | moduleNotFoundError (modName : String)
  | importError (msg : String)
  | valueError (msg : String)
  | otherException (name msg : String)
  deriving DecidableEq, Repr

/-- Python values relevant to this package: arbitrary-precision integers,
strings, and `None` (a representative value supporting no addition). -/
inductive PyVal where
  | int (n : Int)
  | str (s : String)
  | pyNone
  deriving DecidableEq, Repr

/-- Python binary `+`: integer addition on two `int`s, concatenation on two
`str`s, and a `TypeError` on any other combination of operands. -/
def pyAdd : PyVal → PyVal → Except PyErr PyVal
  | .int m, .int n => .ok (.int (m + n))
  | .str s, .str t => .ok (.str (s ++ t))
  | _, _ => .error (.typeError "unsupported operand types for +")

/-- Modelled from the spec: the body of `example_function` lives in the
module `cts_caseload.core`, which is absent from the source tree; only
its import in `__init__.py` and its unit test are present. The spec states the
contract "given two numeric values `a` and `b`, returns `a + b`", with any
type-mismatch error propagated unchanged from the underlying addition. -/
def example_function (a b : PyVal) : Except PyErr PyVal :=
  pyAdd a b

/-- Program state visible to a Python function call (module globals). Used
to express that `example_function` is stateless and side-effect-free. -/
structure ProgState where
  globals : List (String × PyVal)
  deriving DecidableEq, Repr

/-- Modelled from the spec: `example_function` as a state transformer. The
spec states the function is "synchronous, stateless, and side-effect-free",
so the call returns its result and leaves the state untouched. -/
def example_function_stateful (s : ProgState) (a b : PyVal) :
    Except PyErr PyVal × ProgState :=
  (example_function a b, s)

/-- The package metadata declared in `__init__.py`. -/
def __author__ : String := "Stan. M"

/-- The package metadata declared in `__init__.py`. -/
def __email__ : String := "mwagichimu@gmail.com"

/-- Modelled from the spec: `example_function` in the context of the
package metadata constants. The missing body, per the spec, computes
`a + b` from its two arguments alone; the metadata does not occur in it. -/
def example_function_with_meta (author email : String) (a b : PyVal) :
    Except PyErr PyVal :=
  example_function a b

/-- The `__all__` list declared at the bottom of `__init__.py`. -/
def __all__ : List String := ["example_function", "__version__"]

/-- The version-fallback block of `__init__.py`: the argument is the
outcome of `from ._version import __version__` (its exported string on
success, the raised exception on failure), and the result is the value
bound to `__version__`. The `except Exception` arm binds the fallback
`"999"` for every exception. -/
def loadVersion : Except PyErr String → String
  | .ok v => v
  | .error _ => "999"

/-- The Python modules defined by the files of the source tree:
`src/cts_caseload/__init__.py` defines the package `cts_caseload`, and
`tests/test_cts_caseload.py` defines the test module. No file defines
`cts_caseload.core` or `cts_caseload._version`. -/
def repoModules : List String := ["cts_caseload", "tests.test_cts_caseload"]

/-- Importing the package `cts_caseload`: the first statement of
`__init__.py` is `from .core import example_function`, which requires the
module `cts_caseload.core` to resolve; when it does not, the import aborts
with `ModuleNotFoundError` before any later binding (`__version__`,
`__all__`) is made. On success the exported names are returned. -/
def importTopLevel : Except PyErr (List String) :=
  if repoModules.contains "cts_caseload.core" then
    .ok __all__
  else
    .error (.moduleNotFoundError "cts_caseload.core")

end CtsCaseload

namespace CtsCaseload

/-- Claim C1: for every pair of numeric values `a` and `b`,
`example_function a b` returns their sum `a + b`. -/
theorem example_function_returns_sum (m n : Int) :
    example_function (.int m) (.int n) = .ok (.int (m + n)) := rfl

/-- Claim C2: no module named `core` exists in the source tree, so the
top-level import of the package fails with `ModuleNotFoundError` and the
package interface never resolves `example_function`. -/
theorem core_module_missing_import_fails :
    repoModules.contains "cts_caseload.core" = false ∧
    importTopLevel =
      .error (.moduleNotFoundError "cts_caseload.core") := by
  constructor
  · rfl
  · rfl

/-- Claim C3 counterexample: when the `_version` module is available and
exports the empty string, `__version__` is bound to the empty string, so
the version string is not always non-empty. -/
theorem loadVersion_empty_cex :
    ¬ (loadVersion (Except.ok "") ≠ "") := by
  simp [loadVersion]

/-- Claim C3 (amended): when the `_version` module is available its
`__version__` is used verbatim, and when it is unavailable `__version__`
falls back to the default `"999"`, which is non-empty; the result is
non-empty whenever the available value is. -/
theorem loadVersion_amended :
    (∀ v : String, loadVersion (Except.ok v) = v) ∧
    (∀ e : PyErr, loadVersion (Except.error e) = "999") ∧
    loadVersion (Except.error (.moduleNotFoundError "cts_caseload._version")) ≠ "" := by
  refine ⟨fun v => rfl, fun e => rfl, ?_⟩
  simp [loadVersion]

/-- Claim C4: on the concrete input pair `(1, 2)` the function returns
`3`, as the unit test asserts. -/
theorem example_function_concrete_one_two :
    example_function (.int 1) (.int 2) = .ok (.int 3) := rfl

/-- Claim C5: for every pair of values of a numeric type whose addition
commutes (integers here), `example_function` is commutative in its
arguments. -/
theorem example_function_comm (m n : Int) :
    example_function (.int m) (.int n) = example_function (.int n) (.int m) := by
  simp [example_function, pyAdd, Int.add_comm]

/-- Claim C6: `example_function` is exactly the underlying addition — any
failure is the type-mismatch error of `+`, propagated unchanged with no
recovery or translation — and every call either succeeds with a value or
fails with a `TypeError`; no other failure mode exists. -/
theorem example_function_error_propagation (a b : PyVal) :
    example_function a b = pyAdd a b ∧
    ((∃ v, example_function a b = .ok v) ∨
      (∃ msg, example_function a b = .error (.typeError msg))) := by
  refine ⟨rfl, ?_⟩
  cases a <;> cases b <;> simp [example_function, pyAdd]

/-- Claim C7: `example_function` is pure and stateless: a call leaves the
program state unchanged, and its result agrees with the pure function of
its two arguments alone, independently of the state it is called in. -/
theorem example_function_pure (s s' : ProgState) (a b : PyVal) :
    (example_function_stateful s a b).2 = s ∧
    (example_function_stateful s a b).1 = example_function a b ∧
    (example_function_stateful s a b).1 = (example_function_stateful s' a b).1 := by
  exact ⟨rfl, rfl, rfl⟩

/-- Claim C8: the package exports exactly one function name and the
version string: `__all__` is exactly the two-element list
`["example_function", "__version__"]`. -/
theorem all_exports_exact :
    __all__ = ["example_function", "__version__"] ∧ __all__.length = 2 := by
  constructor
  · rfl
  · rfl

/-- Claim C9: the metadata constants `__author__` and `__email__` have no
behavioral effect: the result of `example_function` is identical under any
two assignments of the metadata, and in particular under the declared
values. -/
theorem metadata_no_behavioral_effect
    (au₁ em₁ au₂ em₂ : String) (a b : PyVal) :
    example_function_with_meta au₁ em₁ a b =
      example_function_with_meta au₂ em₂ a b ∧
    example_function_with_meta __author__ __email__ a b =
      example_function a b := by
  exact ⟨rfl, rfl⟩

/-- Claim C10: the fallback arm catches every exception raised while
the `_version` import — missing module, import error, or any other error
during its execution — binding `__version__` to `"999"`, so loading the
version never propagates an exception: `loadVersion` is total and returns
a plain string on every outcome. -/
theorem loadVersion_catches_all (e : PyErr) :
    loadVersion (Except.error e) = "999" := rfl

end CtsCaseload
